import Mathlib

/-!
# accel-macros: `include/accel/macros.hpp`

A shallow embedding of the conditional-compilation logic of `macros.hpp` and of
the run-time behaviour of the statement `ACC_ASSERT(expr);`.

* A `Config` records the identification signals the header tests with
  `defined(...)` or compares in an `#if`.
* Every `#if / #elif / #else` chain of the header is one function from `Config`
  to what the chain `#define`s; a chain that can reach `#error` returns
  `Except String _`, the error carrying the text of the `#error` line.
* `macros_hpp` runs the chains in source order, so the first `#error` reached
  is the one the build stops with.
-/

namespace Accel

/-! ## Configuration space -/

/-- Signals tested by the header.  A `Bool` field is `defined(NAME)`.  The three
    `Option Int` fields are macros whose value is compared in an `#if`; `none`
    means "not defined". -/
structure Config where
  -- toolchain identity
  _MSC_VER : Bool
  __GNUC__ : Bool
  __STDC_VERSION__ : Option Int
  -- build mode
  NDEBUG : Bool
  _DEBUG : Bool
  -- operating system
  __MINGW32__ : Bool
  _WIN32 : Bool
  __CYGWIN__ : Bool
  __EMSCRIPTEN__ : Bool
  __ANDROID__ : Bool
  ANDROID : Bool
  __linux__ : Bool
  __APPLE__ : Bool
  __MACH__ : Bool
  -- values provided by <TargetConditionals.h> (not part of the repository),
  -- as seen after the `#include` of line 49
  TARGET_OS_IPHONE : Option Int
  TARGET_OS_MAC : Option Int
  -- CPU architecture
  __i386__ : Bool
  i386 : Bool
  _M_IX86 : Bool
  _X86_ : Bool
  __x86_64__ : Bool
  _M_X64 : Bool
  __arm64__ : Bool
  __aarch64__ : Bool
  arm : Bool
  __arm__ : Bool
  ARM : Bool
  _ARM_ : Bool
  -- linkage mode
  STATIC_BUILD : Bool
  ACCEL_EXPORTS : Bool
  deriving DecidableEq, Repr

/-- Value of an identifier inside an `#if` expression: an identifier that is not
    defined as a macro is replaced by `0`. -/
def ppValue (v : Option Int) : Int := v.getD 0

/-- A configuration in which no signal at all is defined. -/
def Config.none : Config :=
  { _MSC_VER := false, __GNUC__ := false, __STDC_VERSION__ := Option.none,
    NDEBUG := false, _DEBUG := false,
    __MINGW32__ := false, _WIN32 := false, __CYGWIN__ := false,
    __EMSCRIPTEN__ := false, __ANDROID__ := false, ANDROID := false,
    __linux__ := false, __APPLE__ := false, __MACH__ := false,
    TARGET_OS_IPHONE := Option.none, TARGET_OS_MAC := Option.none,
    __i386__ := false, i386 := false, _M_IX86 := false, _X86_ := false,
    __x86_64__ := false, _M_X64 := false, __arm64__ := false,
    __aarch64__ := false, arm := false, __arm__ := false, ARM := false,
    _ARM_ := false, STATIC_BUILD := false, ACCEL_EXPORTS := false }

/-! ## Platform detection (lines 39-59) -/

/-- Which of the six platform macros the platform chain has `#define`d. -/
structure PlatformTags where
  PLATFORM_WINDOWS : Bool
  PLATFORM_WEB : Bool
  PLATFORM_ANDROID : Bool
  PLATFORM_LINUX : Bool
  PLATFORM_IOS : Bool
  PLATFORM_MACOS : Bool
  deriving DecidableEq, Repr

/-- No platform macro defined: the state before line 40. -/
def PlatformTags.none : PlatformTags :=
  { PLATFORM_WINDOWS := false, PLATFORM_WEB := false, PLATFORM_ANDROID := false,
    PLATFORM_LINUX := false, PLATFORM_IOS := false, PLATFORM_MACOS := false }

/-- Number of platform macros that are defined. -/
def PlatformTags.count (t : PlatformTags) : Nat :=
  [t.PLATFORM_WINDOWS, t.PLATFORM_WEB, t.PLATFORM_ANDROID,
   t.PLATFORM_LINUX, t.PLATFORM_IOS, t.PLATFORM_MACOS].count true

/-- Lines 40-59, the `// Platform detection` chain. -/
def platformDetection (c : Config) : Except String PlatformTags :=
  if c.__MINGW32__ || c._MSC_VER || c._WIN32 || c.__CYGWIN__ then
    .ok { PlatformTags.none with PLATFORM_WINDOWS := true }
  else if c.__EMSCRIPTEN__ then
    .ok { PlatformTags.none with PLATFORM_WEB := true }
  else if c.__ANDROID__ || c.ANDROID then
    .ok { PlatformTags.none with PLATFORM_ANDROID := true }
  else if c.__linux__ then
    .ok { PlatformTags.none with PLATFORM_LINUX := true }
  else if c.__APPLE__ && c.__MACH__ then
    if ppValue c.TARGET_OS_IPHONE == 1 then
      .ok { PlatformTags.none with PLATFORM_IOS := true }
    else if ppValue c.TARGET_OS_MAC == 1 then
      .ok { PlatformTags.none with PLATFORM_MACOS := true }
    else
      .error "Unsupported apple platform"
  else
    .error "Unsupported platform"

/-! ## CPU architecture detection (lines 61-70) -/

/-- Which of the four architecture macros the architecture chain has
    `#define`d. -/
structure ArchitectureTags where
  ARCHITECTURE_X86 : Bool
  ARCHITECTURE_X86_64 : Bool
  ARCHITECTURE_ARM64 : Bool
  ARCHITECTURE_ARM : Bool
  deriving DecidableEq, Repr

/-- No architecture macro defined: the state before line 62. -/
def ArchitectureTags.none : ArchitectureTags :=
  { ARCHITECTURE_X86 := false, ARCHITECTURE_X86_64 := false,
    ARCHITECTURE_ARM64 := false, ARCHITECTURE_ARM := false }

/-- Lines 62-70, the `// CPU architecture detection` chain.  It has no `#else`
    and no `#error`. -/
def architectureDetection (c : Config) : ArchitectureTags :=
  if c.__i386__ || c.i386 || c._M_IX86 || c._X86_ then
    { ArchitectureTags.none with ARCHITECTURE_X86 := true }
  else if c.__x86_64__ || c._M_X64 then
    { ArchitectureTags.none with ARCHITECTURE_X86_64 := true }
  else if c.__arm64__ || c.__aarch64__ then
    { ArchitectureTags.none with ARCHITECTURE_ARM64 := true }
  else if c.arm || c.__arm__ || c.ARM || c._ARM_ then
    { ArchitectureTags.none with ARCHITECTURE_ARM := true }
  else
    ArchitectureTags.none

/-! ## Toolchain capability hints (lines 10-17 and 75-102)

Each function returns the replacement list of the macro as it is spelled in the
header. -/

/-- Lines 11-17, the `// Debug trap` chain: replacement list of `ACC_BREAK`. -/
def ACC_BREAK (c : Config) : Except String String :=
  if c._MSC_VER then .ok "__debugbreak()"
  else if c.__GNUC__ then .ok "__builtin_trap()"
  else .error "Compiler debug break not defined"

/-- Lines 76-84, the `// Thread local variable` chain: replacement list of
    `ACC_THREAD_LOCAL`. -/
def ACC_THREAD_LOCAL (c : Config) : Except String String :=
  if c.__GNUC__ then .ok "__thread"
  else if c._MSC_VER then .ok "__declspec(thread)"
  else if ppValue c.__STDC_VERSION__ ≥ 201112 then .ok "_Thread_local"
  else .error "Compiler thread local storage keyword not defined"

/-- Lines 87-93, the `// Align hint` chain: replacement list of
    `ACC_ALIGN_HINT(x)`, with the parameter written `x`. -/
def ACC_ALIGN_HINT (c : Config) : Except String String :=
  if c.__GNUC__ then .ok "__attribute__((aligned(x)))"
  else if c._MSC_VER then .ok "__declspec(align(x))"
  else .error "Compiler align hint not defined"

/-- Lines 96-102, the `// Always inline hint` chain: replacement list of
    `ACC_INLINE_HINT`. -/
def ACC_INLINE_HINT (c : Config) : Except String String :=
  if c.__GNUC__ then .ok "__attribute__((always_inline))"
  else if c._MSC_VER then .ok "__forceinline"
  else .error "Compiler inline hint not defined"

/-! ## Export macro (lines 104-117) -/

/-- Lines 105-117, the `// Export macro` chain: replacement list of
    `ACC_EXPORT`.  The empty string is the empty replacement list of line 107. -/
def ACC_EXPORT (c : Config) : String :=
  if c._MSC_VER || c.__MINGW32__ then
    if c.STATIC_BUILD then ""
    else
      if c.ACCEL_EXPORTS then "__declspec(dllexport)"
      else "__declspec(dllimport)"
  else "__attribute__((visibility(\"default\")))"

/-! ## The header as a whole -/

/-- Replacement lists of the five facilities of the toolchain capability
    resolver. -/
structure Capabilities where
  ACC_BREAK : String
  ACC_THREAD_LOCAL : String
  ACC_ALIGN_HINT : String
  ACC_INLINE_HINT : String
  ACC_EXPORT : String
  deriving DecidableEq, Repr

/-- The toolchain chains of the header (lines 10-17 and 75-117) in source order;
    the first `#error` reached stops the build. -/
def toolchainCapabilities (c : Config) : Except String Capabilities := do
  let brk ← ACC_BREAK c
  let tls ← ACC_THREAD_LOCAL c
  let align ← ACC_ALIGN_HINT c
  let inl ← ACC_INLINE_HINT c
  pure { ACC_BREAK := brk, ACC_THREAD_LOCAL := tls, ACC_ALIGN_HINT := align,
         ACC_INLINE_HINT := inl, ACC_EXPORT := ACC_EXPORT c }

/-- What a successful pass over `macros.hpp` leaves defined by its conditional
    chains. -/
structure Macros where
  ACC_BREAK : String
  platform : PlatformTags
  architecture : ArchitectureTags
  ACC_THREAD_LOCAL : String
  ACC_ALIGN_HINT : String
  ACC_INLINE_HINT : String
  ACC_EXPORT : String
  deriving DecidableEq, Repr

/-- All conditional chains of `macros.hpp` in source order (lines 10-117); the
    first `#error` reached stops the build. -/
def macros_hpp (c : Config) : Except String Macros := do
  let brk ← ACC_BREAK c
  let plat ← platformDetection c
  let arch := architectureDetection c
  let tls ← ACC_THREAD_LOCAL c
  let align ← ACC_ALIGN_HINT c
  let inl ← ACC_INLINE_HINT c
  pure { ACC_BREAK := brk, platform := plat, architecture := arch,
         ACC_THREAD_LOCAL := tls, ACC_ALIGN_HINT := align,
         ACC_INLINE_HINT := inl, ACC_EXPORT := ACC_EXPORT c }

/-! ## Run-time behaviour of `ACC_ASSERT(expr);` (lines 19-37) -/

/-- Observable actions of the assertion. -/
inductive Event where
  /-- One insertion `std::cerr << text`. -/
  | cerr (text : String)
  /-- Execution of the trap intrinsic that `ACC_BREAK` expands to. -/
  | trap (intrinsic : String)
  deriving DecidableEq, Repr

/-- Program state `state` together with the actions observed so far, oldest
    first. -/
structure World (σ : Type) where
  state : σ
  events : List Event

/-- A statement, as a transformer of the world. -/
abbrev Stmt (σ : Type) := World σ → World σ

/-- The argument of `ACC_ASSERT`: its spelling (what `#expr` produces) and its
    evaluation, which yields a truth value and may have side effects. -/
structure Expr (σ : Type) where
  text : String
  eval : World σ → Bool × World σ

/-- Values of `__FILE__`, `__FUNCTION__` and `__LINE__` at the place of use. -/
structure Location where
  __FILE__ : String
  __FUNCTION__ : String
  __LINE__ : Nat
  deriving DecidableEq, Repr

/-- The statement `std::cerr << text`. -/
def cerrInsert {σ : Type} (text : String) : Stmt σ :=
  fun w => { w with events := w.events ++ [Event.cerr text] }

/-- The statement `ACC_BREAK;` for a given replacement list of `ACC_BREAK`. -/
def breakStmt {σ : Type} (intrinsic : String) : Stmt σ :=
  fun w => { w with events := w.events ++ [Event.trap intrinsic] }

/-- Lines 7-8: `MACRO_BLOCK_BEGIN body MACRO_BLOCK_END` is
    `do { body } while (0)`, which runs `body` once. -/
def MACRO_BLOCK {σ : Type} (body : Stmt σ) : Stmt σ := body

/-- Line 20: the condition under which `ACC_DEBUG_ONLY(x)` keeps `x`. -/
def debugActive (c : Config) : Bool := !c.NDEBUG || c._DEBUG

/-- Lines 20-24: `ACC_DEBUG_ONLY(x)` is `x` in the first branch and has an empty
    replacement list in the second, leaving the null statement. -/
def ACC_DEBUG_ONLY {σ : Type} (c : Config) (x : Stmt σ) : Stmt σ :=
  if debugActive c then x else id

/-- Lines 30-35: the `if` statement inside the block. -/
def assertCheck {σ : Type} (intrinsic : String) (expr : Expr σ) (loc : Location) :
    Stmt σ := fun w =>
  let r := expr.eval w
  if !r.1 then
    r.2
      |> cerrInsert "Failed assertion: " |> cerrInsert expr.text |> cerrInsert "\n"
      |> cerrInsert "Location: " |> cerrInsert loc.__FILE__ |> cerrInsert "@"
      |> cerrInsert loc.__FUNCTION__ |> cerrInsert "():"
      |> cerrInsert (toString loc.__LINE__) |> cerrInsert "\n"
      |> breakStmt intrinsic
  else
    r.2

/-- Lines 27-37: the statement `ACC_ASSERT(expr);` in a translation unit that
    includes `macros.hpp`, or the `#error` the header stops the build with. -/
def ACC_ASSERT {σ : Type} (c : Config) (expr : Expr σ) (loc : Location) :
    Except String (Stmt σ) := do
  let m ← macros_hpp c
  pure (ACC_DEBUG_ONLY c (MACRO_BLOCK (assertCheck m.ACC_BREAK expr loc)))

/-! ## Example configurations and inputs -/

/-- GCC targeting Linux on x86-64, debug build, shared library being built. -/
def gccLinuxDebug : Config :=
  { Config.none with __GNUC__ := true, __linux__ := true, __x86_64__ := true,
                     ACCEL_EXPORTS := true }

/-- GCC targeting Linux on x86-64, release build (`NDEBUG` only). -/
def gccLinuxRelease : Config :=
  { gccLinuxDebug with NDEBUG := true }

/-- GCC targeting Linux, static linkage. -/
def gccLinuxStatic : Config :=
  { Config.none with __GNUC__ := true, __linux__ := true, STATIC_BUILD := true }

/-- MSVC targeting Windows on x86-64, consumer of the shared library. -/
def msvcWindowsConsumer : Config :=
  { Config.none with _MSC_VER := true, _WIN32 := true, _M_X64 := true }

/-- An unrecognised compiler that conforms to C11. -/
def genericC11 : Config :=
  { Config.none with __STDC_VERSION__ := some 201112, __linux__ := true }

/-- What `macros.hpp` defines for `gccLinuxDebug` and `gccLinuxRelease`. -/
def gccLinuxMacros : Macros :=
  { ACC_BREAK := "__builtin_trap()",
    platform := { PlatformTags.none with PLATFORM_LINUX := true },
    architecture := { ArchitectureTags.none with ARCHITECTURE_X86_64 := true },
    ACC_THREAD_LOCAL := "__thread",
    ACC_ALIGN_HINT := "__attribute__((aligned(x)))",
    ACC_INLINE_HINT := "__attribute__((always_inline))",
    ACC_EXPORT := "__attribute__((visibility(\"default\")))" }

/-- The condition `++counter == limit` over a program state that is the
    counter: it increments the counter and compares the new value. -/
def counterExpr (limit : Nat) : Expr Nat :=
  { text := "++counter == limit",
    eval := fun w => (w.state + 1 == limit, { w with state := w.state + 1 }) }

/-- A place of use of the assertion. -/
def sampleLocation : Location :=
  { __FILE__ := "main.cpp", __FUNCTION__ := "main", __LINE__ := 42 }

/-- A world with counter `0` and nothing observed yet. -/
def freshWorld : World Nat := { state := 0, events := [] }

/-- Clang targeting iOS: `TargetConditionals.h` sets both indicators to `1`. -/
def clangIos : Config :=
  { Config.none with __GNUC__ := true, __APPLE__ := true, __MACH__ := true,
                     TARGET_OS_IPHONE := some 1, TARGET_OS_MAC := some 1,
                     __arm64__ := true, __aarch64__ := true }

/-- Clang targeting Android: the Android and the Linux signal are both
    defined. -/
def clangAndroid : Config :=
  { Config.none with __GNUC__ := true, __ANDROID__ := true, __linux__ := true,
                     __aarch64__ := true }

/-- A compiler that defines both `_MSC_VER` and `__GNUC__`, targeting
    Windows. -/
def mscAndGnu : Config :=
  { Config.none with _MSC_VER := true, __GNUC__ := true, _WIN32 := true }

/-- GCC under Cygwin, consumer of the shared library: Windows is detected
    through `__CYGWIN__` only. -/
def gccCygwinConsumer : Config :=
  { Config.none with __GNUC__ := true, __CYGWIN__ := true }

/-- GCC targeting Linux with both `NDEBUG` and `_DEBUG` defined. -/
def gccLinuxBothDebugFlags : Config :=
  { gccLinuxDebug with NDEBUG := true, _DEBUG := true }

/-! ## Notions of the specification used to state properties -/

/-- Number of architecture macros that are defined. -/
def ArchitectureTags.count (t : ArchitectureTags) : Nat :=
  [t.ARCHITECTURE_X86, t.ARCHITECTURE_X86_64, t.ARCHITECTURE_ARM64,
   t.ARCHITECTURE_ARM].count true

/-- The twelve signals the architecture chain tests (lines 62-68), in source
    order. -/
def archSignals (c : Config) : List Bool :=
  [c.__i386__, c.i386, c._M_IX86, c._X86_, c.__x86_64__, c._M_X64,
   c.__arm64__, c.__aarch64__, c.arm, c.__arm__, c.ARM, c._ARM_]

/-- Platform families of the priority list of the specification. -/
inductive PlatformFamily where
  | Windows
  | Web
  | Android
  | Linux
  | Apple
  deriving DecidableEq, Repr

/-- The fixed priority list as the specification gives it: Windows, Web,
    Android, Linux, Apple. -/
def platformPriority : List PlatformFamily :=
  [.Windows, .Web, .Android, .Linux, .Apple]

/-- Whether a signal of the family is present. -/
def PlatformFamily.signalled (f : PlatformFamily) (c : Config) : Bool :=
  match f with
  | .Windows => c.__MINGW32__ || c._MSC_VER || c._WIN32 || c.__CYGWIN__
  | .Web => c.__EMSCRIPTEN__
  | .Android => c.__ANDROID__ || c.ANDROID
  | .Linux => c.__linux__
  | .Apple => c.__APPLE__ && c.__MACH__

/-- The tag a family stands for; the Apple family is disambiguated by the
    secondary indicators, mobile before desktop, and is an error when neither
    matches. -/
def PlatformFamily.resolve (f : PlatformFamily) (c : Config) :
    Except String PlatformTags :=
  match f with
  | .Windows => .ok { PlatformTags.none with PLATFORM_WINDOWS := true }
  | .Web => .ok { PlatformTags.none with PLATFORM_WEB := true }
  | .Android => .ok { PlatformTags.none with PLATFORM_ANDROID := true }
  | .Linux => .ok { PlatformTags.none with PLATFORM_LINUX := true }
  | .Apple =>
    if ppValue c.TARGET_OS_IPHONE == 1 then
      .ok { PlatformTags.none with PLATFORM_IOS := true }
    else if ppValue c.TARGET_OS_MAC == 1 then
      .ok { PlatformTags.none with PLATFORM_MACOS := true }
    else .error "Unsupported apple platform"

/-- First match in a priority list, as the specification words the classifier:
    the first family of the list with a signal present decides; no match is the
    unsupported-platform error. -/
def firstMatch : List PlatformFamily → Config → Except String PlatformTags
  | [], _ => .error "Unsupported platform"
  | f :: rest, c => if f.signalled c then f.resolve c else firstMatch rest c

/-- Toolchain families that have spellings for the capability hints. -/
inductive ToolchainFamily where
  | MSVC
  | GCC
  deriving DecidableEq, Repr

/-- Spellings of the four capability hints in the `_MSC_VER` branches (lines
    12, 79, 90, 99) and in the `__GNUC__` branches (lines 14, 77, 88, 97); the
    `ACC_EXPORT` field is not used. -/
def ToolchainFamily.spellings (f : ToolchainFamily) : Capabilities :=
  match f with
  | .MSVC =>
    { ACC_BREAK := "__debugbreak()", ACC_THREAD_LOCAL := "__declspec(thread)",
      ACC_ALIGN_HINT := "__declspec(align(x))", ACC_INLINE_HINT := "__forceinline",
      ACC_EXPORT := "" }
  | .GCC =>
    { ACC_BREAK := "__builtin_trap()", ACC_THREAD_LOCAL := "__thread",
      ACC_ALIGN_HINT := "__attribute__((aligned(x)))",
      ACC_INLINE_HINT := "__attribute__((always_inline))", ACC_EXPORT := "" }

/-- The four capability hints of `caps` are spelled the way family `f` spells
    them. -/
def usesSpellingsOf (caps : Capabilities) (f : ToolchainFamily) : Prop :=
  caps.ACC_BREAK = f.spellings.ACC_BREAK ∧
  caps.ACC_THREAD_LOCAL = f.spellings.ACC_THREAD_LOCAL ∧
  caps.ACC_ALIGN_HINT = f.spellings.ACC_ALIGN_HINT ∧
  caps.ACC_INLINE_HINT = f.spellings.ACC_INLINE_HINT

instance (caps : Capabilities) (f : ToolchainFamily) :
    Decidable (usesSpellingsOf caps f) := by
  unfold usesSpellingsOf
  infer_instance

/-- Library linkage modes of the data model. -/
inductive LinkageMode where
  | static
  | buildingTheLibrary
  | consumingTheLibrary
  deriving DecidableEq, Repr

/-- Linkage mode of a configuration: static when `STATIC_BUILD` is defined,
    otherwise building or consuming the library according to `ACCEL_EXPORTS`
    (the tests of lines 106 and 109). -/
def linkageMode (c : Config) : LinkageMode :=
  if c.STATIC_BUILD then .static
  else if c.ACCEL_EXPORTS then .buildingTheLibrary
  else .consumingTheLibrary

/-! ## Platform classification -/

/-- C1: for every set of OS signals the platform chain either stops the build
    with an `#error` or defines exactly one of the six platform macros; it never
    defines two and never succeeds with none. -/
theorem platformDetection_error_or_exactly_one (c : Config) :
    (∃ msg, platformDetection c = .error msg) ∨
    (∃ t, platformDetection c = .ok t ∧ t.count = 1) := by
  unfold platformDetection
  split_ifs <;> simp [PlatformTags.count, PlatformTags.none]

/-- C2: when none of the Windows, Emscripten, Android and Linux signals is
    defined and `__APPLE__`, `__MACH__` are not both defined, the platform chain
    stops the build with `#error Unsupported platform`: it yields no platform
    tags, and the header as a whole does not build. -/
theorem platformDetection_unrecognised_fails (c : Config)
    (hMingw : c.__MINGW32__ = false) (hMsc : c._MSC_VER = false)
    (hWin : c._WIN32 = false) (hCyg : c.__CYGWIN__ = false)
    (hEm : c.__EMSCRIPTEN__ = false)
    (hAnd : c.__ANDROID__ = false) (hAnd2 : c.ANDROID = false)
    (hLinux : c.__linux__ = false)
    (hApple : ¬ (c.__APPLE__ = true ∧ c.__MACH__ = true)) :
    platformDetection c = .error "Unsupported platform" ∧
    (∀ t, platformDetection c ≠ .ok t) ∧
    (∀ m, macros_hpp c ≠ .ok m) := by
  have hp : platformDetection c = .error "Unsupported platform" := by
    have hAM : (c.__APPLE__ && c.__MACH__) = false := by
      cases h1 : c.__APPLE__ <;> cases h2 : c.__MACH__ <;> simp_all
    unfold platformDetection
    simp [hMingw, hMsc, hWin, hCyg, hEm, hAnd, hAnd2, hLinux, hAM]
  refine ⟨hp, ?_, ?_⟩
  · intro t; rw [hp]; simp
  · intro m hm
    unfold macros_hpp at hm
    rw [hp] at hm
    cases hb : ACC_BREAK c <;> simp [hb, bind, Except.bind] at hm

/-- Witness of C2: a configuration that defines `__APPLE__` without `__MACH__`
    and nothing else. -/
theorem platformDetection_unrecognised_fails_witness :
    platformDetection { Config.none with __APPLE__ := true }
      = .error "Unsupported platform" ∧
    (∀ t, platformDetection { Config.none with __APPLE__ := true } ≠ .ok t) ∧
    (∀ m, macros_hpp { Config.none with __APPLE__ := true } ≠ .ok m) :=
  platformDetection_unrecognised_fails { Config.none with __APPLE__ := true }
    rfl rfl rfl rfl rfl rfl rfl rfl (by decide)

/-! ## Debug assertion facility -/

/-- A header that builds took its `ACC_BREAK` from the debug-trap chain. -/
theorem macros_hpp_ACC_BREAK (c : Config) (m : Macros) (h : macros_hpp c = .ok m) :
    ACC_BREAK c = .ok m.ACC_BREAK := by
  unfold macros_hpp at h
  cases hb : ACC_BREAK c with
  | error e => simp [hb, bind, Except.bind] at h
  | ok brk =>
    cases hp : platformDetection c with
    | error e => simp [hb, hp, bind, Except.bind] at h
    | ok plat =>
      cases ht : ACC_THREAD_LOCAL c with
      | error e => simp [hb, hp, ht, bind, Except.bind] at h
      | ok tls =>
        cases ha : ACC_ALIGN_HINT c with
        | error e => simp [hb, hp, ht, ha, bind, Except.bind] at h
        | ok align =>
          cases hi : ACC_INLINE_HINT c with
          | error e => simp [hb, hp, ht, ha, hi, bind, Except.bind] at h
          | ok inl =>
            simp [hb, hp, ht, ha, hi, bind, Except.bind, pure, Except.pure] at h
            rw [← h]

/-- When the header builds, `ACC_ASSERT(expr);` is the debug-only block around
    the check, with the trap the header resolved. -/
theorem ACC_ASSERT_of_build {σ : Type} (c : Config) (m : Macros) (expr : Expr σ)
    (loc : Location) (h : macros_hpp c = .ok m) :
    ACC_ASSERT c expr loc
      = .ok (ACC_DEBUG_ONLY c (MACRO_BLOCK (assertCheck m.ACC_BREAK expr loc))) := by
  unfold ACC_ASSERT
  rw [h]
  rfl

/-- C3: in a debug build (`NDEBUG` not defined or `_DEBUG` defined) of a
    configuration whose header builds, an assertion whose condition evaluates to
    false appends to what the evaluation left, in this order: the three
    insertions of the first diagnostic line (with the literal text of the
    condition), the seven insertions of the location line (file, routine, line),
    and last the trap that `ACC_BREAK` expands to. -/
theorem ACC_ASSERT_false_reports_then_traps {σ : Type} (c : Config) (m : Macros)
    (expr : Expr σ) (loc : Location) (w : World σ)
    (hbuild : macros_hpp c = .ok m)
    (hdebug : c.NDEBUG = false ∨ c._DEBUG = true)
    (hfalse : (expr.eval w).1 = false) :
    ACC_BREAK c = .ok m.ACC_BREAK ∧
    ∃ s, ACC_ASSERT c expr loc = .ok s ∧
      s w =
        { state := (expr.eval w).2.state,
          events := (expr.eval w).2.events ++
            [Event.cerr "Failed assertion: ", Event.cerr expr.text, Event.cerr "\n",
             Event.cerr "Location: ", Event.cerr loc.__FILE__, Event.cerr "@",
             Event.cerr loc.__FUNCTION__, Event.cerr "():",
             Event.cerr (toString loc.__LINE__), Event.cerr "\n",
             Event.trap m.ACC_BREAK] } := by
  refine ⟨macros_hpp_ACC_BREAK c m hbuild, _, ACC_ASSERT_of_build c m expr loc hbuild, ?_⟩
  have hact : debugActive c = true := by
    unfold debugActive
    rcases hdebug with h | h <;> simp [h]
  simp [ACC_DEBUG_ONLY, hact, MACRO_BLOCK, assertCheck, hfalse, cerrInsert, breakStmt]

/-- Witness of C3: GCC on Linux, debug build, the counter condition evaluating to
    false at `main.cpp@main():42`. -/
theorem ACC_ASSERT_false_reports_then_traps_witness :
    ACC_BREAK gccLinuxDebug = .ok "__builtin_trap()" ∧
    ∃ s, ACC_ASSERT gccLinuxDebug (counterExpr 5) sampleLocation = .ok s ∧
      s freshWorld =
        { state := 1,
          events :=
            [Event.cerr "Failed assertion: ", Event.cerr "++counter == limit",
             Event.cerr "\n", Event.cerr "Location: ", Event.cerr "main.cpp",
             Event.cerr "@", Event.cerr "main", Event.cerr "():",
             Event.cerr "42", Event.cerr "\n",
             Event.trap "__builtin_trap()"] } :=
  ACC_ASSERT_false_reports_then_traps gccLinuxDebug gccLinuxMacros (counterExpr 5)
    sampleLocation freshWorld rfl (Or.inl rfl) rfl

/-- C4: in a release build (`NDEBUG` defined, `_DEBUG` not) of a configuration
    whose header builds, `ACC_ASSERT(expr);` is the null statement: the
    condition is not evaluated, so the program state and the observed actions
    are exactly what they were (no diagnostic, no trap). -/
theorem ACC_ASSERT_release_is_inert {σ : Type} (c : Config) (m : Macros)
    (expr : Expr σ) (loc : Location) (w : World σ)
    (hbuild : macros_hpp c = .ok m)
    (hNDEBUG : c.NDEBUG = true) (hDEBUG : c._DEBUG = false) :
    ∃ s, ACC_ASSERT c expr loc = .ok s ∧ s w = w ∧
      (s w).state = w.state ∧ (s w).events = w.events := by
  refine ⟨_, ACC_ASSERT_of_build c m expr loc hbuild, ?_⟩
  simp [ACC_DEBUG_ONLY, debugActive, hNDEBUG, hDEBUG]

/-- Witness of C4: GCC on Linux, release build; the counter condition would
    increment the counter, and the counter stays `0`. -/
theorem ACC_ASSERT_release_is_inert_witness :
    (counterExpr 5).eval freshWorld ≠ (false, freshWorld) ∧
    ∃ s, ACC_ASSERT gccLinuxRelease (counterExpr 5) sampleLocation = .ok s ∧
      s freshWorld = freshWorld ∧
      (s freshWorld).state = 0 ∧ (s freshWorld).events = [] :=
  ⟨by simp [counterExpr, freshWorld],
   ACC_ASSERT_release_is_inert gccLinuxRelease gccLinuxMacros (counterExpr 5)
     sampleLocation freshWorld rfl rfl rfl⟩

/-- C5: in a debug build of a configuration whose header builds, an assertion
    whose condition evaluates to true leaves exactly the world its single
    evaluation produced: nothing is appended to the observed actions, neither a
    diagnostic nor a trap. -/
theorem ACC_ASSERT_true_is_silent {σ : Type} (c : Config) (m : Macros)
    (expr : Expr σ) (loc : Location) (w : World σ)
    (hbuild : macros_hpp c = .ok m)
    (hdebug : c.NDEBUG = false ∨ c._DEBUG = true)
    (htrue : (expr.eval w).1 = true) :
    ∃ s, ACC_ASSERT c expr loc = .ok s ∧ s w = (expr.eval w).2 ∧
      (s w).events = (expr.eval w).2.events := by
  refine ⟨_, ACC_ASSERT_of_build c m expr loc hbuild, ?_⟩
  have hact : debugActive c = true := by
    unfold debugActive
    rcases hdebug with h | h <;> simp [h]
  simp [ACC_DEBUG_ONLY, hact, MACRO_BLOCK, assertCheck, htrue]

/-- Witness of C5: GCC on Linux, debug build, the counter condition evaluating
    to true: the counter was incremented once and nothing was observed. -/
theorem ACC_ASSERT_true_is_silent_witness :
    ∃ s, ACC_ASSERT gccLinuxDebug (counterExpr 1) sampleLocation = .ok s ∧
      s freshWorld = { state := 1, events := [] } ∧
      (s freshWorld).events = [] :=
  ACC_ASSERT_true_is_silent gccLinuxDebug gccLinuxMacros (counterExpr 1)
    sampleLocation freshWorld rfl (Or.inl rfl) rfl

/-! ## Export-control resolver -/

/-- C6, counterexample: GCC on Linux with `STATIC_BUILD` defined is in static
    linkage mode, and `ACC_EXPORT` is the default-visibility attribute, not the
    empty replacement list. -/
theorem ACC_EXPORT_static_gcc_not_empty :
    gccLinuxStatic.STATIC_BUILD = true ∧
    ACC_EXPORT gccLinuxStatic = "__attribute__((visibility(\"default\")))" ∧
    ACC_EXPORT gccLinuxStatic ≠ "" := by
  decide

/-- C6, amended: in static linkage mode `ACC_EXPORT` is never an import or an
    export marker; it is the empty replacement list when `_MSC_VER` or
    `__MINGW32__` is defined, and the default-visibility attribute otherwise,
    whatever `ACCEL_EXPORTS` is. -/
theorem ACC_EXPORT_static (c : Config) (hstatic : c.STATIC_BUILD = true) :
    ACC_EXPORT c ≠ "__declspec(dllexport)" ∧
    ACC_EXPORT c ≠ "__declspec(dllimport)" ∧
    ((c._MSC_VER = true ∨ c.__MINGW32__ = true) → ACC_EXPORT c = "") ∧
    ((c._MSC_VER = false ∧ c.__MINGW32__ = false) →
      ACC_EXPORT c = "__attribute__((visibility(\"default\")))") := by
  unfold ACC_EXPORT
  cases hm : c._MSC_VER <;> cases hg : c.__MINGW32__ <;> simp [hstatic]

/-- Witness of C6, amended: MSVC on Windows with `STATIC_BUILD` and
    `ACCEL_EXPORTS` both defined. -/
theorem ACC_EXPORT_static_witness :
    ACC_EXPORT { msvcWindowsConsumer with STATIC_BUILD := true, ACCEL_EXPORTS := true }
      ≠ "__declspec(dllexport)" ∧
    ACC_EXPORT { msvcWindowsConsumer with STATIC_BUILD := true, ACCEL_EXPORTS := true }
      ≠ "__declspec(dllimport)" ∧
    ACC_EXPORT { msvcWindowsConsumer with STATIC_BUILD := true, ACCEL_EXPORTS := true }
      = "" :=
  have h := ACC_EXPORT_static
    { msvcWindowsConsumer with STATIC_BUILD := true, ACCEL_EXPORTS := true } rfl
  ⟨h.1, h.2.1, h.2.2.1 (Or.inl rfl)⟩

/-- C7: in dynamic linkage mode with `_MSC_VER` or `__MINGW32__` defined,
    `ACC_EXPORT` is `__declspec(dllexport)` exactly when `ACCEL_EXPORTS` is
    defined and `__declspec(dllimport)` exactly when it is not. -/
theorem ACC_EXPORT_dynamic_declspec (c : Config)
    (hdyn : c.STATIC_BUILD = false)
    (hmark : c._MSC_VER = true ∨ c.__MINGW32__ = true) :
    (ACC_EXPORT c = "__declspec(dllexport)" ↔ c.ACCEL_EXPORTS = true) ∧
    (ACC_EXPORT c = "__declspec(dllimport)" ↔ c.ACCEL_EXPORTS = false) := by
  have hcond : (c._MSC_VER || c.__MINGW32__) = true := by
    rcases hmark with h | h <;> simp [h]
  unfold ACC_EXPORT
  cases he : c.ACCEL_EXPORTS <;> simp [hcond, hdyn]

/-- Witness of C7: an MSVC consumer that sets no flag gets the import marker. -/
theorem ACC_EXPORT_dynamic_declspec_witness :
    msvcWindowsConsumer.ACCEL_EXPORTS = false ∧
    ACC_EXPORT msvcWindowsConsumer = "__declspec(dllimport)" :=
  ⟨rfl, (ACC_EXPORT_dynamic_declspec msvcWindowsConsumer rfl (Or.inl rfl)).2.2 rfl⟩

/-- C8: in dynamic linkage mode with neither `_MSC_VER` nor `__MINGW32__`
    defined, `ACC_EXPORT` is the default-visibility attribute whether or not
    `ACCEL_EXPORTS` is defined, and is neither the import nor the export
    marker. -/
theorem ACC_EXPORT_dynamic_visibility (c : Config)
    (hdyn : c.STATIC_BUILD = false)
    (hMsc : c._MSC_VER = false) (hMingw : c.__MINGW32__ = false) :
    ACC_EXPORT c = "__attribute__((visibility(\"default\")))" ∧
    ACC_EXPORT c = ACC_EXPORT { c with ACCEL_EXPORTS := !c.ACCEL_EXPORTS } ∧
    ACC_EXPORT c ≠ "__declspec(dllexport)" ∧
    ACC_EXPORT c ≠ "__declspec(dllimport)" := by
  have _ := hdyn
  unfold ACC_EXPORT
  simp [hMsc, hMingw]

/-- Witness of C8: GCC on Linux building the shared library. -/
theorem ACC_EXPORT_dynamic_visibility_witness :
    gccLinuxDebug.ACCEL_EXPORTS = true ∧
    ACC_EXPORT gccLinuxDebug = "__attribute__((visibility(\"default\")))" :=
  ⟨rfl, (ACC_EXPORT_dynamic_visibility gccLinuxDebug rfl rfl rfl).1⟩

/-! ## Toolchain capability resolver -/

/-- Without `_MSC_VER` and `__GNUC__` the debug-trap chain reaches its
    `#error`. -/
theorem ACC_BREAK_unrecognised (c : Config)
    (hMsc : c._MSC_VER = false) (hGnu : c.__GNUC__ = false) :
    ACC_BREAK c = .error "Compiler debug break not defined" := by
  simp [ACC_BREAK, hMsc, hGnu]

/-- C9: when neither `_MSC_VER` nor `__GNUC__` is defined, toolchain capability
    resolution stops the build with the `#error` of the debug-trap chain (the
    align-hint and inline-hint chains reach their own `#error` too, and the
    header as a whole does not build); and in every configuration, whatever
    `ACC_BREAK`, `ACC_THREAD_LOCAL`, `ACC_ALIGN_HINT` or `ACC_INLINE_HINT` is
    defined as, it is not the empty replacement list. -/
theorem toolchainCapabilities_fails_or_nonempty (c : Config) :
    (c._MSC_VER = false → c.__GNUC__ = false →
      toolchainCapabilities c = .error "Compiler debug break not defined" ∧
      ACC_BREAK c = .error "Compiler debug break not defined" ∧
      ACC_ALIGN_HINT c = .error "Compiler align hint not defined" ∧
      ACC_INLINE_HINT c = .error "Compiler inline hint not defined" ∧
      (∀ m, macros_hpp c ≠ .ok m)) ∧
    (∀ s : String,
      (ACC_BREAK c = .ok s ∨ ACC_THREAD_LOCAL c = .ok s ∨
       ACC_ALIGN_HINT c = .ok s ∨ ACC_INLINE_HINT c = .ok s) → s ≠ "") := by
  constructor
  · intro hMsc hGnu
    have hb := ACC_BREAK_unrecognised c hMsc hGnu
    refine ⟨?_, hb, ?_, ?_, ?_⟩
    · unfold toolchainCapabilities
      rw [hb]
      rfl
    · simp [ACC_ALIGN_HINT, hMsc, hGnu]
    · simp [ACC_INLINE_HINT, hMsc, hGnu]
    · intro m hm
      unfold macros_hpp at hm
      rw [hb] at hm
      simp [bind, Except.bind] at hm
  · intro s hs
    unfold ACC_BREAK ACC_THREAD_LOCAL ACC_ALIGN_HINT ACC_INLINE_HINT at hs
    rcases hs with h | h | h | h <;> split_ifs at h <;>
      (injection h with h; subst h; decide)

/-- Witness of C9: with no signal defined at all the resolution fails, and
    under GCC the trap is the non-empty `__builtin_trap()`. -/
theorem toolchainCapabilities_fails_or_nonempty_witness :
    toolchainCapabilities Config.none = .error "Compiler debug break not defined" ∧
    "__builtin_trap()" ≠ "" :=
  ⟨((toolchainCapabilities_fails_or_nonempty Config.none).1 rfl rfl).1,
   (toolchainCapabilities_fails_or_nonempty gccLinuxDebug).2 "__builtin_trap()"
     (Or.inl rfl)⟩

/-- C10, counterexample: the generic C11-conforming identity (neither `_MSC_VER`
    nor `__GNUC__`, `__STDC_VERSION__` at least `201112L`) does not resolve:
    the build stops at the debug-trap chain. -/
theorem toolchainCapabilities_genericC11_fails :
    genericC11._MSC_VER = false ∧ genericC11.__GNUC__ = false ∧
    ppValue genericC11.__STDC_VERSION__ ≥ 201112 ∧
    toolchainCapabilities genericC11 = .error "Compiler debug break not defined" ∧
    ¬ ∃ caps, toolchainCapabilities genericC11 = .ok caps := by
  have hfail : toolchainCapabilities genericC11
      = .error "Compiler debug break not defined" := rfl
  refine ⟨rfl, rfl, by decide, hfail, ?_⟩
  rintro ⟨caps, h⟩
  rw [hfail] at h
  exact absurd h (by simp)

/-- C10, amended: when `__GNUC__` or `_MSC_VER` is defined, toolchain capability
    resolution succeeds and every facility is defined, each by its own chain;
    for the generic C11-conforming identity only the thread-local chain has a
    spelling, and resolution stops at the debug-trap chain. -/
theorem toolchainCapabilities_recognised_succeeds (c : Config) :
    ((c.__GNUC__ = true ∨ c._MSC_VER = true) →
      ∃ caps, toolchainCapabilities c = .ok caps ∧
        ACC_BREAK c = .ok caps.ACC_BREAK ∧
        ACC_THREAD_LOCAL c = .ok caps.ACC_THREAD_LOCAL ∧
        ACC_ALIGN_HINT c = .ok caps.ACC_ALIGN_HINT ∧
        ACC_INLINE_HINT c = .ok caps.ACC_INLINE_HINT ∧
        caps.ACC_EXPORT = ACC_EXPORT c) ∧
    (c._MSC_VER = false → c.__GNUC__ = false →
      ppValue c.__STDC_VERSION__ ≥ 201112 →
      ACC_THREAD_LOCAL c = .ok "_Thread_local" ∧
      toolchainCapabilities c = .error "Compiler debug break not defined") := by
  constructor
  · intro h
    unfold toolchainCapabilities ACC_BREAK ACC_THREAD_LOCAL ACC_ALIGN_HINT
      ACC_INLINE_HINT
    cases hg : c.__GNUC__ <;> cases hm : c._MSC_VER <;>
      simp [hg, hm, bind, Except.bind, pure, Except.pure] at h ⊢
  · intro hMsc hGnu hStd
    refine ⟨?_, ?_⟩
    · simp [ACC_THREAD_LOCAL, hMsc, hGnu, hStd]
    · unfold toolchainCapabilities
      rw [ACC_BREAK_unrecognised c hMsc hGnu]
      rfl

/-- Witness of C10, amended: MSVC on Windows resolves all five facilities, and
    the generic C11 configuration stops at the debug-trap chain. -/
theorem toolchainCapabilities_recognised_succeeds_witness :
    (∃ caps, toolchainCapabilities msvcWindowsConsumer = .ok caps ∧
        ACC_BREAK msvcWindowsConsumer = .ok caps.ACC_BREAK ∧
        ACC_THREAD_LOCAL msvcWindowsConsumer = .ok caps.ACC_THREAD_LOCAL ∧
        ACC_ALIGN_HINT msvcWindowsConsumer = .ok caps.ACC_ALIGN_HINT ∧
        ACC_INLINE_HINT msvcWindowsConsumer = .ok caps.ACC_INLINE_HINT ∧
        caps.ACC_EXPORT = ACC_EXPORT msvcWindowsConsumer) ∧
    (ACC_THREAD_LOCAL genericC11 = .ok "_Thread_local" ∧
      toolchainCapabilities genericC11 = .error "Compiler debug break not defined") :=
  ⟨(toolchainCapabilities_recognised_succeeds msvcWindowsConsumer).1 (Or.inr rfl),
   (toolchainCapabilities_recognised_succeeds genericC11).2 rfl rfl (by decide)⟩

/-! ## Apple branch, architecture, priority order -/

/-- C11: in the Apple branch (`__APPLE__` and `__MACH__` defined, no Windows,
    Emscripten, Android or Linux signal) the tag is `PLATFORM_IOS` when
    `TARGET_OS_IPHONE == 1`, whatever `TARGET_OS_MAC` is; `PLATFORM_MACOS` when
    `TARGET_OS_IPHONE != 1` and `TARGET_OS_MAC == 1`; and the build stops with
    `#error Unsupported apple platform` when neither equals `1`. -/
theorem platformDetection_apple (c : Config)
    (hApple : c.__APPLE__ = true) (hMach : c.__MACH__ = true)
    (hMingw : c.__MINGW32__ = false) (hMsc : c._MSC_VER = false)
    (hWin : c._WIN32 = false) (hCyg : c.__CYGWIN__ = false)
    (hEm : c.__EMSCRIPTEN__ = false)
    (hAnd : c.__ANDROID__ = false) (hAnd2 : c.ANDROID = false)
    (hLinux : c.__linux__ = false) :
    (ppValue c.TARGET_OS_IPHONE = 1 →
      platformDetection c = .ok { PlatformTags.none with PLATFORM_IOS := true }) ∧
    (ppValue c.TARGET_OS_IPHONE ≠ 1 → ppValue c.TARGET_OS_MAC = 1 →
      platformDetection c = .ok { PlatformTags.none with PLATFORM_MACOS := true }) ∧
    (ppValue c.TARGET_OS_IPHONE ≠ 1 → ppValue c.TARGET_OS_MAC ≠ 1 →
      platformDetection c = .error "Unsupported apple platform" ∧
      ∀ m, macros_hpp c ≠ .ok m) := by
  refine ⟨?_, ?_, ?_⟩
  · intro hI
    simp [platformDetection, hApple, hMach, hMingw, hMsc, hWin, hCyg, hEm, hAnd,
      hAnd2, hLinux, hI]
  · intro hI hM
    simp [platformDetection, hApple, hMach, hMingw, hMsc, hWin, hCyg, hEm, hAnd,
      hAnd2, hLinux, hI, hM]
  · intro hI hM
    have hp : platformDetection c = .error "Unsupported apple platform" := by
      simp [platformDetection, hApple, hMach, hMingw, hMsc, hWin, hCyg, hEm, hAnd,
        hAnd2, hLinux, hI, hM]
    refine ⟨hp, ?_⟩
    intro m hm
    unfold macros_hpp at hm
    rw [hp] at hm
    cases hb : ACC_BREAK c <;> simp [hb, bind, Except.bind] at hm

/-- Witness of C11: Clang targeting iOS, where both indicators are `1`, gets
    `PLATFORM_IOS`. -/
theorem platformDetection_apple_witness :
    ppValue clangIos.TARGET_OS_MAC = 1 ∧
    platformDetection clangIos
      = .ok { PlatformTags.none with PLATFORM_IOS := true } :=
  ⟨rfl, (platformDetection_apple clangIos rfl rfl rfl rfl rfl rfl rfl rfl rfl rfl).1 rfl⟩

/-- C12: the architecture chain has no failing branch (when the other chains
    succeed the header builds, with the architecture tags of the chain); it
    defines at most one of the four architecture macros; it defines none exactly
    when none of the twelve architecture signals is defined; and two
    configurations that agree on the twelve architecture signals get the same
    architecture tags, whatever their other signals and platform tags are. -/
theorem architectureDetection_total_at_most_one (c : Config) :
    (∀ brk plat tls align inl,
      ACC_BREAK c = .ok brk → platformDetection c = .ok plat →
      ACC_THREAD_LOCAL c = .ok tls → ACC_ALIGN_HINT c = .ok align →
      ACC_INLINE_HINT c = .ok inl →
      ∃ m, macros_hpp c = .ok m ∧ m.architecture = architectureDetection c) ∧
    (architectureDetection c).count ≤ 1 ∧
    ((architectureDetection c).count = 0 ↔ true ∉ archSignals c) ∧
    (∀ d : Config, archSignals d = archSignals c →
      architectureDetection d = architectureDetection c) := by
  refine ⟨?_, ?_, ?_, ?_⟩
  · intro brk plat tls align inl hb hp ht ha hi
    refine ⟨{ ACC_BREAK := brk, platform := plat,
              architecture := architectureDetection c, ACC_THREAD_LOCAL := tls,
              ACC_ALIGN_HINT := align, ACC_INLINE_HINT := inl,
              ACC_EXPORT := ACC_EXPORT c }, ?_, rfl⟩
    unfold macros_hpp
    rw [hb, hp, ht, ha, hi]
    rfl
  · unfold architectureDetection
    split_ifs <;> simp [ArchitectureTags.count, ArchitectureTags.none]
  · unfold architectureDetection archSignals
    split_ifs <;> simp_all [ArchitectureTags.count, ArchitectureTags.none] <;>
      intros <;> simp_all
  · intro d hd
    simp only [archSignals, List.cons.injEq, and_true] at hd
    obtain ⟨e1, e2, e3, e4, e5, e6, e7, e8, e9, e10, e11, e12⟩ := hd
    unfold architectureDetection
    rw [e1, e2, e3, e4, e5, e6, e7, e8, e9, e10, e11, e12]

/-- Witness of C12: Clang for Android and the same configuration without the
    Android signal (plain Linux) define the same architecture signals and get
    the same architecture tags, although their platform tags differ. -/
theorem architectureDetection_total_at_most_one_witness :
    platformDetection { clangAndroid with __ANDROID__ := false }
      ≠ platformDetection clangAndroid ∧
    architectureDetection { clangAndroid with __ANDROID__ := false }
      = architectureDetection clangAndroid ∧
    ∃ m, macros_hpp clangAndroid = .ok m ∧
      m.architecture = { ArchitectureTags.none with ARCHITECTURE_ARM64 := true } :=
  ⟨by simp [platformDetection, clangAndroid, Config.none, PlatformTags.none],
   (architectureDetection_total_at_most_one clangAndroid).2.2.2
     { clangAndroid with __ANDROID__ := false } rfl,
   (architectureDetection_total_at_most_one clangAndroid).1 _ _ _ _ _
     rfl rfl rfl rfl rfl⟩

/-- C13: the platform chain is the first match in the priority list Windows,
    Web, Android, Linux, Apple; hence an Android signal together with
    `__linux__` (no Windows or Emscripten signal) gives `PLATFORM_ANDROID` and
    not `PLATFORM_LINUX`, and `__EMSCRIPTEN__` together with `__linux__` (no
    Windows signal) gives `PLATFORM_WEB`. -/
theorem platformDetection_first_match (c : Config) :
    platformDetection c = firstMatch platformPriority c ∧
    (PlatformFamily.Windows.signalled c = false → c.__EMSCRIPTEN__ = false →
      (c.__ANDROID__ = true ∨ c.ANDROID = true) → c.__linux__ = true →
      platformDetection c = .ok { PlatformTags.none with PLATFORM_ANDROID := true } ∧
      platformDetection c ≠ .ok { PlatformTags.none with PLATFORM_LINUX := true }) ∧
    (PlatformFamily.Windows.signalled c = false → c.__EMSCRIPTEN__ = true →
      c.__linux__ = true →
      platformDetection c = .ok { PlatformTags.none with PLATFORM_WEB := true }) := by
  refine ⟨?_, ?_, ?_⟩
  · simp only [platformDetection, platformPriority, firstMatch,
      PlatformFamily.signalled, PlatformFamily.resolve]
  · intro hW hE hA hL
    have hA2 : (c.__ANDROID__ || c.ANDROID) = true := by
      rcases hA with h | h <;> simp [h]
    simp only [PlatformFamily.signalled] at hW
    simp [platformDetection, hW, hE, hA2, PlatformTags.none]
  · intro hW hE hL
    simp only [PlatformFamily.signalled] at hW
    simp [platformDetection, hW, hE]

/-- Witness of C13: Clang targeting Android defines `__ANDROID__` and
    `__linux__` and gets `PLATFORM_ANDROID`. -/
theorem platformDetection_first_match_witness :
    clangAndroid.__linux__ = true ∧
    platformDetection clangAndroid
      = .ok { PlatformTags.none with PLATFORM_ANDROID := true } :=
  ⟨rfl, ((platformDetection_first_match clangAndroid).2.1 rfl rfl (Or.inl rfl) rfl).1⟩

/-! ## Compiler identity, export annotation, build mode -/

/-- C14, counterexample: with both `_MSC_VER` and `__GNUC__` defined the
    resolution succeeds, the debug trap has the MSVC spelling and the other
    three hints have the GCC spellings, so no single family spells all four. -/
theorem toolchainCapabilities_mscAndGnu_mixed :
    mscAndGnu._MSC_VER = true ∧ mscAndGnu.__GNUC__ = true ∧
    toolchainCapabilities mscAndGnu
      = .ok { ACC_BREAK := "__debugbreak()", ACC_THREAD_LOCAL := "__thread",
              ACC_ALIGN_HINT := "__attribute__((aligned(x)))",
              ACC_INLINE_HINT := "__attribute__((always_inline))",
              ACC_EXPORT := "__declspec(dllimport)" } ∧
    ¬ ∃ caps f, toolchainCapabilities mscAndGnu = .ok caps ∧
        usesSpellingsOf caps f := by
  have hcaps : toolchainCapabilities mscAndGnu
      = .ok { ACC_BREAK := "__debugbreak()", ACC_THREAD_LOCAL := "__thread",
              ACC_ALIGN_HINT := "__attribute__((aligned(x)))",
              ACC_INLINE_HINT := "__attribute__((always_inline))",
              ACC_EXPORT := "__declspec(dllimport)" } := rfl
  refine ⟨rfl, rfl, hcaps, ?_⟩
  rintro ⟨caps, f, h, hf⟩
  rw [hcaps] at h
  injection h with h
  subst h
  cases f <;> revert hf <;> decide

/-- C14, amended: when exactly one of `_MSC_VER` and `__GNUC__` is defined,
    toolchain resolution succeeds and one family, MSVC when `_MSC_VER` is the
    one defined and GCC otherwise, spells all of debug-trap, thread-local
    qualifier, align-hint and force-inline. -/
theorem toolchainCapabilities_single_family (c : Config)
    (hone : c._MSC_VER ≠ c.__GNUC__) :
    ∃ caps, toolchainCapabilities c = .ok caps ∧
      usesSpellingsOf caps (if c._MSC_VER then .MSVC else .GCC) := by
  unfold toolchainCapabilities ACC_BREAK ACC_THREAD_LOCAL ACC_ALIGN_HINT
    ACC_INLINE_HINT
  cases hm : c._MSC_VER <;> cases hg : c.__GNUC__ <;>
    simp [hm, hg, bind, Except.bind, pure, Except.pure, usesSpellingsOf,
      ToolchainFamily.spellings] at hone ⊢

/-- Witness of C14, amended: MSVC alone gets the MSVC spellings. -/
theorem toolchainCapabilities_single_family_witness :
    ∃ caps, toolchainCapabilities msvcWindowsConsumer = .ok caps ∧
      usesSpellingsOf caps .MSVC :=
  toolchainCapabilities_single_family msvcWindowsConsumer (by decide)

/-- C15, counterexample: two configurations in the same linkage mode (consuming
    the library) and with the same platform tag `PLATFORM_WINDOWS`, one detected
    through `_MSC_VER` and one through `__CYGWIN__` only, get different
    `ACC_EXPORT` annotations. -/
theorem ACC_EXPORT_differs_on_windows :
    linkageMode msvcWindowsConsumer = linkageMode gccCygwinConsumer ∧
    platformDetection msvcWindowsConsumer
      = .ok { PlatformTags.none with PLATFORM_WINDOWS := true } ∧
    platformDetection gccCygwinConsumer
      = .ok { PlatformTags.none with PLATFORM_WINDOWS := true } ∧
    ACC_EXPORT msvcWindowsConsumer = "__declspec(dllimport)" ∧
    ACC_EXPORT gccCygwinConsumer = "__attribute__((visibility(\"default\")))" ∧
    ACC_EXPORT msvcWindowsConsumer ≠ ACC_EXPORT gccCygwinConsumer := by
  refine ⟨rfl, rfl, rfl, rfl, rfl, ?_⟩
  decide

/-- C15, amended: `ACC_EXPORT` is a function of the linkage mode and of whether
    the toolchain requires explicit markers (`_MSC_VER` or `__MINGW32__`
    defined): two configurations that agree on both get the same annotation,
    whatever their platform tags are. -/
theorem ACC_EXPORT_function_of_mode_and_toolchain (c d : Config)
    (hmode : linkageMode c = linkageMode d)
    (htool : (c._MSC_VER || c.__MINGW32__) = (d._MSC_VER || d.__MINGW32__)) :
    ACC_EXPORT c = ACC_EXPORT d := by
  unfold ACC_EXPORT
  rw [htool]
  unfold linkageMode at hmode
  cases hcs : c.STATIC_BUILD <;> cases hds : d.STATIC_BUILD <;>
    cases hce : c.ACCEL_EXPORTS <;> cases hde : d.ACCEL_EXPORTS <;>
    simp [hcs, hds, hce, hde] at hmode ⊢

/-- Witness of C15, amended: an MSVC consumer and a MinGW consumer are in the
    same linkage mode, both require explicit markers, and get the same
    annotation. -/
theorem ACC_EXPORT_function_of_mode_and_toolchain_witness :
    ACC_EXPORT msvcWindowsConsumer
      = ACC_EXPORT { Config.none with __GNUC__ := true, __MINGW32__ := true } :=
  ACC_EXPORT_function_of_mode_and_toolchain msvcWindowsConsumer
    { Config.none with __GNUC__ := true, __MINGW32__ := true } rfl rfl

/-- Appending to `std::cerr` is not the null statement. -/
theorem cerrInsert_ne_id (text : String) : (cerrInsert text : Stmt Nat) ≠ id := by
  intro h
  have h2 := congrArg (fun s => (s freshWorld).events) h
  simp [cerrInsert, freshWorld] at h2

/-- C16: `ACC_DEBUG_ONLY(x)` is `x` for every `x` (Active) exactly when `NDEBUG`
    is not defined or `_DEBUG` is defined, and is the null statement for every
    `x` (Inert) exactly when `NDEBUG` is defined and `_DEBUG` is not; with both
    `NDEBUG` and `_DEBUG` defined `ACC_DEBUG_ONLY(x)` is `x`, and in a header
    that builds `ACC_ASSERT` evaluates its condition and, when it is false,
    reports and traps. -/
theorem ACC_DEBUG_ONLY_build_mode (c : Config) :
    ((∀ x : Stmt Nat, ACC_DEBUG_ONLY c x = x) ↔
      (c.NDEBUG = false ∨ c._DEBUG = true)) ∧
    ((∀ x : Stmt Nat, ACC_DEBUG_ONLY c x = id) ↔
      (c.NDEBUG = true ∧ c._DEBUG = false)) ∧
    (c.NDEBUG = true → c._DEBUG = true →
      (∀ (σ : Type) (x : Stmt σ), ACC_DEBUG_ONLY c x = x) ∧
      ∀ (σ : Type) (m : Macros) (expr : Expr σ) (loc : Location) (w : World σ),
        macros_hpp c = .ok m → (expr.eval w).1 = false →
        ∃ s, ACC_ASSERT c expr loc = .ok s ∧
          s w =
            { state := (expr.eval w).2.state,
              events := (expr.eval w).2.events ++
                [Event.cerr "Failed assertion: ", Event.cerr expr.text,
                 Event.cerr "\n", Event.cerr "Location: ",
                 Event.cerr loc.__FILE__, Event.cerr "@",
                 Event.cerr loc.__FUNCTION__, Event.cerr "():",
                 Event.cerr (toString loc.__LINE__), Event.cerr "\n",
                 Event.trap m.ACC_BREAK] }) := by
  refine ⟨?_, ?_, ?_⟩
  · constructor
    · intro h
      cases hn : c.NDEBUG <;> cases hd : c._DEBUG <;> simp
      have h1 := h (cerrInsert "x")
      simp [ACC_DEBUG_ONLY, debugActive, hn, hd] at h1
      exact cerrInsert_ne_id "x" h1.symm
    · intro h x
      have hact : debugActive c = true := by
        unfold debugActive
        rcases h with h | h <;> simp [h]
      simp [ACC_DEBUG_ONLY, hact]
  · constructor
    · intro h
      cases hn : c.NDEBUG <;> cases hd : c._DEBUG <;> simp <;>
        (have h1 := h (cerrInsert "x")
         simp [ACC_DEBUG_ONLY, debugActive, hn, hd] at h1
         exact cerrInsert_ne_id "x" h1)
    · rintro ⟨hn, hd⟩ x
      simp [ACC_DEBUG_ONLY, debugActive, hn, hd]
  · intro hn hd
    have hact : debugActive c = true := by simp [debugActive, hn, hd]
    refine ⟨fun σ x => by simp [ACC_DEBUG_ONLY, hact], ?_⟩
    intro σ m expr loc w hbuild hfalse
    refine ⟨_, ACC_ASSERT_of_build c m expr loc hbuild, ?_⟩
    simp [ACC_DEBUG_ONLY, hact, MACRO_BLOCK, assertCheck, hfalse, cerrInsert,
      breakStmt]

/-- Witness of C16: GCC on Linux with both `NDEBUG` and `_DEBUG` defined; the
    counter condition is evaluated (the counter becomes `1`), is false, and the
    assertion reports and traps. -/
theorem ACC_DEBUG_ONLY_build_mode_witness :
    ∃ s, ACC_ASSERT gccLinuxBothDebugFlags (counterExpr 5) sampleLocation = .ok s ∧
      s freshWorld =
        { state := 1,
          events :=
            [Event.cerr "Failed assertion: ", Event.cerr "++counter == limit",
             Event.cerr "\n", Event.cerr "Location: ", Event.cerr "main.cpp",
             Event.cerr "@", Event.cerr "main", Event.cerr "():",
             Event.cerr "42", Event.cerr "\n",
             Event.trap "__builtin_trap()"] } :=
  ((ACC_DEBUG_ONLY_build_mode gccLinuxBothDebugFlags).2.2 rfl rfl).2 Nat
    gccLinuxMacros (counterExpr 5) sampleLocation freshWorld rfl rfl

end Accel
